import Mathlib

/-!
MQTT connection manager (src/main.cpp)

A shallow embedding of the Arduino sketch `src/main.cpp`: the functions `setup`,
`loop`, `mqttCallback`, `connectToMQTT`, `publishMessage` and `subscribeToTopic`.

The sketch talks to three collaborators that are not part of the sources: the
global `mqttClient` (a `PubSubClient`), the `Serial` port and the Arduino `delay`.
Every call to one of them is appended, in program order, to a log of `Event`s;
the protocol client is a parameter of every function and owns a state of its own.
-/

namespace MqttBroker

/-! ## Configuration (main.cpp lines 6-11) -/

/-- Value of `#define MQTT_MAX_PACKET_SIZE 256`. -/
def MQTT_MAX_PACKET_SIZE : Nat := 256

/-- Value of `const char* MQTT_BROKER`. -/
def MQTT_BROKER : String := "your_broker_address"

/-- Value of `const int MQTT_PORT`. -/
def MQTT_PORT : Int := 1883

/-- Value of `const char* MQTT_USERNAME`. -/
def MQTT_USERNAME : String := "your_username"

/-- Value of `const char* MQTT_PASSWORD`. -/
def MQTT_PASSWORD : String := "your_password"

/-- Value of `const char* MQTT_CLIENT_ID`. -/
def MQTT_CLIENT_ID : String := "ESP8266_Client"

/-- Length of a C string in bytes, `strlen`. A `String` stands for the
NUL-terminated text a `const char*` points to (the text itself has no NUL). -/
def strlen (s : String) : Nat := s.utf8ByteSize

/-! ## Collaborators -/

/-- Functions of the sketch that are handed to the client as a `void (*)(char*, byte*,
unsigned int)` pointer. The sketch has exactly one. -/
inductive Handler where
  | mqttCallback
deriving DecidableEq, Repr

/-- Modelled from the spec: the declaration of class `PubSubClient` is not part of
the sources, so the client is a parameter whose methods follow the protocol client
capability of section 6. `connected` and `state` are queries (`connected() -> bool`,
`last_error()`); every other method may change the client, and the ones that return
`boolean` give their answer next to the new client state. The state code is an `int`,
as in the `switch` of `connectToMQTT`. -/
structure PubSubClient (σ : Type) where
  /-- Method `setServer(host, port)`. -/
  setServer : σ → String → Int → σ
  /-- Method `setCallback(fn)`. -/
  setCallback : σ → Handler → σ
  /-- Method `connect(id, user, pass)`. -/
  connect : σ → String → String → String → Bool × σ
  /-- Method `connected()`. -/
  connected : σ → Bool
  /-- Method `state()`. -/
  state : σ → Int
  /-- Method `disconnect()`; the sketch never calls it. -/
  disconnect : σ → σ
  /-- Method `publish(topic, payload, retained)`. -/
  publish : σ → String → String → Bool → Bool × σ
  /-- Method `subscribe(topic, qos)`. -/
  subscribe : σ → String → Nat → Bool × σ
  /-- Method `loop()`, the poll step. -/
  loop : σ → Bool × σ

/-- One call to a collaborator, with its arguments and (for client calls) its answer. -/
inductive Event where
  /-- Call `Serial.begin(baud)`. -/
  | serialBegin (baud : Nat)
  /-- Call `Serial.print(const char*)`. -/
  | print (s : String)
  /-- Call `Serial.println(const char*)`. -/
  | println (s : String)
  /-- Call `Serial.print(int)`. -/
  | printInt (v : Int)
  /-- Call `Serial.println` on an unsigned number (`size_t`, `uint8_t`). -/
  | printlnNat (v : Nat)
  /-- Call `Serial.print(char)` with the given byte. -/
  | printChar (b : Nat)
  /-- Call `Serial.println()`. -/
  | newline
  | setServer (host : String) (port : Int)
  | setCallback (h : Handler)
  | connect (id user pass : String) (ok : Bool)
  | connected (answer : Bool)
  | state (code : Int)
  | disconnect
  | publish (topic message : String) (retain ok : Bool)
  | subscribe (topic : String) (qos : Nat) (ok : Bool)
  | poll (answer : Bool)
  | delay (ms : Nat)
deriving DecidableEq, Repr

/-- The protocol client together with everything the sketch has done so far. -/
structure World (σ : Type) where
  client : σ
  log : List Event

variable {σ : Type}

/-- Append one event to the log. -/
@[simp]
def World.emit (w : World σ) (e : Event) : World σ :=
  { client := w.client, log := w.log ++ [e] }

/-- Call `Serial.begin(baud)`. -/
@[simp]
def Serial.begin (baud : Nat) (w : World σ) : World σ := w.emit (.serialBegin baud)

/-- Call `Serial.print(const char*)`. -/
@[simp]
def Serial.print (s : String) (w : World σ) : World σ := w.emit (.print s)

/-- Call `Serial.println(const char*)`. -/
@[simp]
def Serial.println (s : String) (w : World σ) : World σ := w.emit (.println s)

/-- Call `Serial.print(int)`. -/
@[simp]
def Serial.printInt (v : Int) (w : World σ) : World σ := w.emit (.printInt v)

/-- Call `Serial.println` on an unsigned number. -/
@[simp]
def Serial.printlnNat (v : Nat) (w : World σ) : World σ := w.emit (.printlnNat v)

/-- Call `Serial.print(char)`. -/
@[simp]
def Serial.printChar (b : Nat) (w : World σ) : World σ := w.emit (.printChar b)

/-- Call `Serial.println()`. -/
@[simp]
def Serial.newline (w : World σ) : World σ := w.emit .newline

/-- Call `delay(ms)`. -/
@[simp]
def delay (ms : Nat) (w : World σ) : World σ := w.emit (.delay ms)

/-- Call `mqttClient.setServer(host, port)`. -/
@[simp]
def mqttClient.setServer (C : PubSubClient σ) (host : String) (port : Int)
    (w : World σ) : World σ :=
  { client := C.setServer w.client host port, log := w.log ++ [.setServer host port] }

/-- Call `mqttClient.setCallback(h)`. -/
@[simp]
def mqttClient.setCallback (C : PubSubClient σ) (h : Handler) (w : World σ) : World σ :=
  { client := C.setCallback w.client h, log := w.log ++ [.setCallback h] }

/-- Call `mqttClient.connect(id, user, pass)`. -/
@[simp]
def mqttClient.connect (C : PubSubClient σ) (id user pass : String)
    (w : World σ) : Bool × World σ :=
  ((C.connect w.client id user pass).1,
    { client := (C.connect w.client id user pass).2,
      log := w.log ++ [.connect id user pass (C.connect w.client id user pass).1] })

/-- Call `mqttClient.connected()`. -/
@[simp]
def mqttClient.connected (C : PubSubClient σ) (w : World σ) : Bool × World σ :=
  (C.connected w.client, w.emit (.connected (C.connected w.client)))

/-- Call `mqttClient.state()`. -/
@[simp]
def mqttClient.state (C : PubSubClient σ) (w : World σ) : Int × World σ :=
  (C.state w.client, w.emit (.state (C.state w.client)))

/-- Call `mqttClient.publish(topic, message, retain)`. -/
@[simp]
def mqttClient.publish (C : PubSubClient σ) (topic message : String) (retain : Bool)
    (w : World σ) : Bool × World σ :=
  ((C.publish w.client topic message retain).1,
    { client := (C.publish w.client topic message retain).2,
      log := w.log ++ [.publish topic message retain (C.publish w.client topic message retain).1] })

/-- Call `mqttClient.subscribe(topic, qos)`. -/
@[simp]
def mqttClient.subscribe (C : PubSubClient σ) (topic : String) (qos : Nat)
    (w : World σ) : Bool × World σ :=
  ((C.subscribe w.client topic qos).1,
    { client := (C.subscribe w.client topic qos).2,
      log := w.log ++ [.subscribe topic qos (C.subscribe w.client topic qos).1] })

/-- Call `mqttClient.loop()`; the sketch discards the answer. What the client does
inside the poll step, calls of the registered handler included, is the client's own
business and stays inside the one `poll` event. -/
@[simp]
def mqttClient.loop (C : PubSubClient σ) (w : World σ) : World σ :=
  { client := (C.loop w.client).2, log := w.log ++ [.poll (C.loop w.client).1] }

/-! ## The sketch -/

/-- The `switch (mqttClient.state())` of `connectToMQTT` (lines 85-113): the label
printed for a state code; the switch has no `default`. -/
def errorLabel (code : Int) : Option String :=
  if code = -4 then some "MQTT_CONNECTION_TIMEOUT"
  else if code = -3 then some "MQTT_CONNECTION_LOST"
  else if code = -2 then some "MQTT_CONNECT_FAILED"
  else if code = -1 then some "MQTT_DISCONNECTED"
  else if code = 1 then some "MQTT_CONNECT_BAD_PROTOCOL"
  else if code = 2 then some "MQTT_CONNECT_BAD_CLIENT_ID"
  else if code = 3 then some "MQTT_CONNECT_UNAVAILABLE"
  else if code = 4 then some "MQTT_CONNECT_BAD_CREDENTIALS"
  else if code = 5 then some "MQTT_CONNECT_UNAUTHORIZED"
  else none

/-- Function `connectToMQTT` (lines 64-116). -/
def connectToMQTT (C : PubSubClient σ) (w : World σ) : Bool × World σ :=
  let w := Serial.println "Attempting MQTT connection..." w
  let w := mqttClient.setServer C MQTT_BROKER MQTT_PORT w
  let w := mqttClient.setCallback C Handler.mqttCallback w
  let r := mqttClient.connect C MQTT_CLIENT_ID MQTT_USERNAME MQTT_PASSWORD w
  if r.1 then
    let w := Serial.println "Connected to MQTT broker successfully" r.2
    (true, w)
  else
    let w := Serial.print "Failed to connect to MQTT broker, rc=" r.2
    let rc := mqttClient.state C w
    let w := Serial.printInt rc.1 rc.2
    let w := Serial.println " Retry in 5 seconds" w
    let sw := mqttClient.state C w
    let w := match errorLabel sw.1 with
      | some label => Serial.println label sw.2
      | none => sw.2
    (false, w)

/-- The `while (!connectToMQTT()) delay(5000);` of `setup`, with at most `fuel`
connection attempts; `none` when the loop is still running after them. -/
def setupLoop (C : PubSubClient σ) : Nat → World σ → Option (World σ)
  | 0, _ => none
  | fuel + 1, w =>
    let r := connectToMQTT C w
    if !r.1 then setupLoop C fuel (delay 5000 r.2) else some r.2

/-- Function `setup` (lines 23-32). -/
def setup (C : PubSubClient σ) (fuel : Nat) (w : World σ) : Option (World σ) :=
  let w := Serial.begin 115200 w
  let w := Serial.println "\nInitializing..." w
  setupLoop C fuel w

/-- Function `loop` (lines 34-42), one iteration of the driving loop. -/
def loop (C : PubSubClient σ) (w : World σ) : World σ :=
  let c := mqttClient.connected C w
  let w := if !c.1 then (connectToMQTT C c.2).2 else c.2
  mqttClient.loop C w

/-- The `for (int i = 0; i < length; i++) Serial.print((char)payload[i]);` of
`mqttCallback`, entered with counter `i`. The buffer `payload` is the list of its
bytes; reading outside of it has no defined result (`none`). The counter and
`length` are natural numbers: the counter never exceeds `length`, and the comparison
`i < length` is the one the source makes for every `length` below 2^31. -/
def printPayload (payload : List Nat) (length : Nat) (i : Nat) (w : World σ) :
    Option (World σ) :=
  if i < length then
    match payload[i]? with
    | some b => printPayload payload length (i + 1) (Serial.printChar b w)
    | none => none
  else some w
termination_by length - i

/-- Function `mqttCallback` (lines 53-61). -/
def mqttCallback (w : World σ) (topic : String) (payload : List Nat) (length : Nat) :
    Option (World σ) :=
  let w := Serial.print "Message arrived [" w
  let w := Serial.print topic w
  let w := Serial.print "] " w
  match printPayload payload length 0 w with
  | some w => some (Serial.newline w)
  | none => none

/-- Function `publishMessage` (lines 125-150); `retain` defaults to `false` as in
the declaration on line 20. -/
def publishMessage (C : PubSubClient σ) (w : World σ) (topic message : String)
    (retain : Bool := false) : Bool × World σ :=
  let c := mqttClient.connected C w
  if !c.1 then
    (false, Serial.println "Error: Cannot publish - MQTT client not connected" c.2)
  else
    let w := Serial.print "Publishing message to topic: " c.2
    let w := Serial.println topic w
    let w := Serial.print "Message: " w
    let w := Serial.println message w
    let p := mqttClient.publish C topic message retain w
    if p.1 then
      (true, Serial.println "Message published successfully" p.2)
    else
      let w := Serial.println "Error: Failed to publish message" p.2
      let w := Serial.print "Message length: " w
      let w := Serial.printlnNat (strlen message) w
      let w := if strlen message > MQTT_MAX_PACKET_SIZE then
          Serial.println "Error: Message too large for MQTT packet size" w
        else w
      (false, w)

/-- Function `subscribeToTopic` (lines 158-177); `qos` is a `uint8_t` and defaults
to `0` as in the declaration on line 21. -/
def subscribeToTopic (C : PubSubClient σ) (w : World σ) (topic : String)
    (qos : Nat := 0) : Bool × World σ :=
  let c := mqttClient.connected C w
  if !c.1 then
    (false, Serial.println "Error: Cannot subscribe - MQTT client not connected" c.2)
  else
    let w := Serial.print "Subscribing to topic: " c.2
    let w := Serial.println topic w
    let w := Serial.print "QoS level: " w
    let w := Serial.printlnNat qos w
    let s := mqttClient.subscribe C topic qos w
    if s.1 then
      (true, Serial.println "Successfully subscribed to topic" s.2)
    else
      (false, Serial.println "Error: Failed to subscribe to topic" s.2)

/-! ## Reading the log -/

/-- The event is a write to the serial port. -/
def Event.isSerial : Event → Bool
  | .serialBegin _ => true
  | .print _ => true
  | .println _ => true
  | .printInt _ => true
  | .printlnNat _ => true
  | .printChar _ => true
  | .newline => true
  | _ => false

/-- The event is a call of the client's `publish`. -/
def Event.isPublish : Event → Bool
  | .publish _ _ _ _ => true
  | _ => false

/-- The event is a call of the client's `subscribe`. -/
def Event.isSubscribe : Event → Bool
  | .subscribe _ _ _ => true
  | _ => false

/-- What one call of `connectToMQTT` asks of the client, as a function of the client
state: `setServer` with the broker host and port, `setCallback` with `mqttCallback`,
then `connect` with the client id, username and password. -/
def handshake (C : PubSubClient σ) (s : σ) : Bool × σ :=
  C.connect (C.setCallback (C.setServer s MQTT_BROKER MQTT_PORT) Handler.mqttCallback)
    MQTT_CLIENT_ID MQTT_USERNAME MQTT_PASSWORD

/-- The connection-management skeleton of the log: connect attempts with their
outcome, delays, and poll steps. -/
inductive Step where
  | attempt (ok : Bool)
  | wait (ms : Nat)
  | poll
deriving DecidableEq, Repr

/-- The skeleton step an event stands for, if any. -/
def Event.step : Event → Option Step
  | .connect _ _ _ ok => some (.attempt ok)
  | .delay ms => some (.wait ms)
  | .poll _ => some .poll
  | _ => none

/-- The nine state codes with a `case` in the switch of `connectToMQTT`, each with
the label that case prints, in the order of the source. -/
def errorTable : List (Int × String) :=
  [(-4, "MQTT_CONNECTION_TIMEOUT"), (-3, "MQTT_CONNECTION_LOST"),
   (-2, "MQTT_CONNECT_FAILED"), (-1, "MQTT_DISCONNECTED"),
   (1, "MQTT_CONNECT_BAD_PROTOCOL"), (2, "MQTT_CONNECT_BAD_CLIENT_ID"),
   (3, "MQTT_CONNECT_UNAVAILABLE"), (4, "MQTT_CONNECT_BAD_CREDENTIALS"),
   (5, "MQTT_CONNECT_UNAUTHORIZED")]

/-- Everything one call of `connectToMQTT` appends to the log, given the answer `ok`
of the client's connect and the state code `code` the client reports afterwards. -/
def attemptEvents (ok : Bool) (code : Int) : List Event :=
  [Event.println "Attempting MQTT connection...",
   Event.setServer MQTT_BROKER MQTT_PORT,
   Event.setCallback Handler.mqttCallback,
   Event.connect MQTT_CLIENT_ID MQTT_USERNAME MQTT_PASSWORD ok] ++
  (if ok then [Event.println "Connected to MQTT broker successfully"]
   else
    [Event.print "Failed to connect to MQTT broker, rc=",
     Event.state code, Event.printInt code,
     Event.println " Retry in 5 seconds",
     Event.state code] ++ (errorLabel code).toList.map Event.println)

/-- The client's connect fails on the first `n` attempts made from state `s` and
succeeds on attempt `n + 1`. -/
def failsThenSucceeds (C : PubSubClient σ) : Nat → σ → Bool
  | 0, s => (handshake C s).1
  | n + 1, s => !(handshake C s).1 && failsThenSucceeds C n (handshake C s).2

/-- The world after `n` rounds of "call `connectToMQTT`, then `delay(5000)`"
followed by one more call of `connectToMQTT`. -/
def retryRounds (C : PubSubClient σ) : Nat → World σ → World σ
  | 0, w => (connectToMQTT C w).2
  | n + 1, w => retryRounds C n (delay 5000 (connectToMQTT C w).2)

/-- The skeleton of `n` failed attempts, each followed by a 5000 ms delay, and a
successful attempt at the end. -/
def retryTrace : Nat → List Step
  | 0 => [Step.attempt true]
  | n + 1 => Step.attempt false :: Step.wait 5000 :: retryTrace n

/-- Contract of a client whose `connected()` is the connection state of the state
machine in section 4.1 of the spec (Disconnected, Connected): right after `connect`
it reports the outcome of that call, and the poll step does not change what it
reports. -/
def PubSubClient.ReportsOutcome (C : PubSubClient σ) : Prop :=
  (∀ s id user pass, C.connected (C.connect s id user pass).2 = (C.connect s id user pass).1) ∧
  ∀ s, C.connected (C.loop s).2 = C.connected s

/-- The text an event puts on the serial line (`println` ends the line with CR LF,
numbers are written in decimal, a byte is shown as the character with that code). -/
def Event.text : Event → List Char
  | .print s => s.toList
  | .println s => s.toList ++ "\r\n".toList
  | .printInt v => (toString v).toList
  | .printlnNat v => (toString v).toList ++ "\r\n".toList
  | .printChar b => [Char.ofNat b]
  | .newline => "\r\n".toList
  | _ => []

/-- The text a sequence of events puts on the serial line. -/
def serialText : List Event → List Char
  | [] => []
  | e :: es => e.text ++ serialText es

/-! ## A simulated protocol client -/

/-- State of the simulated client. -/
structure SimState where
  /-- What `connected()` answers. -/
  up : Bool
  /-- Number of connect attempts that are still going to fail. -/
  failures : Nat
  /-- What `state()` answers while the client is not connected. -/
  code : Int
  /-- What `publish` and `subscribe` answer. -/
  accept : Bool
deriving DecidableEq, Repr

/-- A simulated protocol client: `connect` fails `failures` times and then succeeds,
`connected` reports the outcome of the last attempt, `publish` and `subscribe`
answer `accept` whatever their arguments are, and `loop` changes nothing. -/
def simClient : PubSubClient SimState where
  setServer s _ _ := s
  setCallback s _ := s
  connect s _ _ _ :=
    if s.failures = 0 then (true, { s with up := true })
    else (false, { s with up := false, failures := s.failures - 1 })
  connected s := s.up
  state s := if s.up then 0 else s.code
  disconnect s := { s with up := false }
  publish s _ _ _ := (s.accept, s)
  subscribe s _ _ := (s.accept, s)
  loop s := (s.up, s)

/-- A world around the simulated client, with an empty log. -/
def simWorld (up : Bool) (failures : Nat) (code : Int) (accept : Bool) : World SimState :=
  { client := { up := up, failures := failures, code := code, accept := accept }, log := [] }

/-- A simulated client like `simClient`, except that its poll step finds the link
lost: after `loop()` it reports not connected. -/
def droppingClient : PubSubClient SimState where
  setServer := simClient.setServer
  setCallback := simClient.setCallback
  connect := simClient.connect
  connected := simClient.connected
  state := simClient.state
  disconnect := simClient.disconnect
  publish := simClient.publish
  subscribe := simClient.subscribe
  loop s := (false, { s with up := false })

/-- A message of `n` bytes, all `x`. -/
def filler (n : Nat) : String := String.mk (List.replicate n (Char.ofNat 120))

/-! ## Theorems -/

/-- The length of `filler n` is `n` bytes. -/
theorem strlen_filler (n : Nat) : strlen (filler n) = n := by
  have hgo : ∀ k, String.utf8ByteSize.go (List.replicate k (Char.ofNat 120)) = k := by
    intro k
    induction k with
    | zero => rfl
    | succ k ih =>
      rw [List.replicate_succ, String.utf8ByteSize.go, ih]
      rfl
  exact hgo n

/-- One call of `connectToMQTT`, in full: its result, the client it leaves and the
events it appends. -/
theorem connectToMQTT_eq (C : PubSubClient σ) (w : World σ) :
    connectToMQTT C w = ((handshake C w.client).1,
      { client := (handshake C w.client).2,
        log := w.log ++ attemptEvents (handshake C w.client).1
          (C.state (handshake C w.client).2) }) := by
  cases hok : (handshake C w.client).1
  · have hok2 := hok
    unfold handshake at hok2
    cases hl : errorLabel (C.state (handshake C w.client).2) with
    | none =>
      have hl2 := hl
      unfold handshake at hl2
      simp [connectToMQTT, hok2, hl2, hl, handshake, attemptEvents]
    | some label =>
      have hl2 := hl
      unfold handshake at hl2
      simp [connectToMQTT, hok2, hl2, hl, handshake, attemptEvents]
  · have hok2 := hok
    unfold handshake at hok2
    simp [connectToMQTT, hok2, handshake, attemptEvents]

/-- A label is printed for a code exactly when the pair is in the table. -/
theorem errorLabel_table (code : Int) (label : String) :
    errorLabel code = some label ↔ (code, label) ∈ errorTable := by
  unfold errorLabel errorTable
  split_ifs <;> simp_all <;> exact eq_comm

/-- No label is printed exactly for the codes outside the nine. -/
theorem errorLabel_none (code : Int) :
    errorLabel code = none ↔ code ∉ [-4, -3, -2, -1, 1, 2, 3, 4, 5] := by
  unfold errorLabel
  simp only [List.mem_cons, List.mem_singleton, List.not_mem_nil, or_false, not_or]
  split_ifs <;> simp_all

/-- Two codes with the same label are the same code. -/
theorem errorLabel_inj (code1 code2 : Int) (label : String)
    (h1 : errorLabel code1 = some label) (h2 : errorLabel code2 = some label) :
    code1 = code2 := by
  rw [errorLabel_table] at h1 h2
  simp only [errorTable, List.mem_cons, List.mem_singleton, List.not_mem_nil, or_false,
    Prod.mk.injEq] at h1
  rcases h1 with h | h | h | h | h | h | h | h | h <;>
  · obtain ⟨hcode, hlabel⟩ := h
    subst hcode hlabel
    simp [errorTable] at h2
    exact h2.symm

/-- The skeleton of one call of `connectToMQTT` is a single attempt. -/
theorem attemptEvents_step (ok : Bool) (code : Int) :
    (attemptEvents ok code).filterMap Event.step = [Step.attempt ok] := by
  cases ok <;> cases hl : errorLabel code <;> simp [attemptEvents, Event.step, hl]

/-- C1: when the protocol client reports not connected, `publishMessage` returns
false, leaves the client state exactly as it was (so it still reports not connected),
and the only things it does are the liveness query and the write of the "not
connected" diagnostic line: no call to publish, connect, disconnect or subscribe. -/
theorem publishMessage_not_connected (C : PubSubClient σ) (w : World σ)
    (topic message : String) (retain : Bool) (h : C.connected w.client = false) :
    (publishMessage C w topic message retain).1 = false ∧
    (publishMessage C w topic message retain).2.client = w.client ∧
    C.connected (publishMessage C w topic message retain).2.client = false ∧
    (publishMessage C w topic message retain).2.log = w.log ++
      [Event.connected false,
       Event.println "Error: Cannot publish - MQTT client not connected"] := by
  simp [publishMessage, mqttClient.connected, Serial.println, World.emit, h]

/-- Witness for C1 on the simulated client, not connected. -/
theorem publishMessage_not_connected_witness :
    (publishMessage simClient (simWorld false 0 (-1) true) "home/temp" "21.5" true).1 = false ∧
    (publishMessage simClient (simWorld false 0 (-1) true) "home/temp" "21.5" true).2.client
      = (simWorld false 0 (-1) true).client ∧
    simClient.connected
      (publishMessage simClient (simWorld false 0 (-1) true) "home/temp" "21.5" true).2.client
      = false ∧
    (publishMessage simClient (simWorld false 0 (-1) true) "home/temp" "21.5" true).2.log
      = (simWorld false 0 (-1) true).log ++
      [Event.connected false,
       Event.println "Error: Cannot publish - MQTT client not connected"] :=
  publishMessage_not_connected simClient (simWorld false 0 (-1) true) "home/temp" "21.5" true rfl

/-- C5: while connected, a publish that the client rejects makes `publishMessage`
return false and write the message length `strlen message`, followed by the oversize
line exactly when `strlen message` exceeds `MQTT_MAX_PACKET_SIZE = 256` (a message of
256 bytes is not flagged); a publish that the client accepts is followed by the success
line only, never by the oversize line. -/
theorem publishMessage_failure_diagnostics (C : PubSubClient σ) (w : World σ)
    (topic message : String) (retain : Bool) (hconn : C.connected w.client = true) :
    MQTT_MAX_PACKET_SIZE = 256 ∧
    ((C.publish w.client topic message retain).1 = false →
      (publishMessage C w topic message retain).1 = false ∧
      ∃ oversize : List Event,
        (publishMessage C w topic message retain).2.log = w.log ++
          [Event.connected true,
           Event.print "Publishing message to topic: ", Event.println topic,
           Event.print "Message: ", Event.println message,
           Event.publish topic message retain false,
           Event.println "Error: Failed to publish message",
           Event.print "Message length: ", Event.printlnNat (strlen message)] ++ oversize ∧
        (oversize = [Event.println "Error: Message too large for MQTT packet size"] ↔
          MQTT_MAX_PACKET_SIZE < strlen message) ∧
        (oversize = [] ↔ strlen message ≤ MQTT_MAX_PACKET_SIZE)) ∧
    ((C.publish w.client topic message retain).1 = true →
      (publishMessage C w topic message retain).1 = true ∧
      (publishMessage C w topic message retain).2.log = w.log ++
        [Event.connected true,
         Event.print "Publishing message to topic: ", Event.println topic,
         Event.print "Message: ", Event.println message,
         Event.publish topic message retain true,
         Event.println "Message published successfully"]) := by
  refine ⟨rfl, ?_, ?_⟩
  · intro hpub
    by_cases hlen : MQTT_MAX_PACKET_SIZE < strlen message
    · refine ⟨?_, [Event.println "Error: Message too large for MQTT packet size"], ?_, ?_, ?_⟩
      · simp [publishMessage, mqttClient.connected, mqttClient.publish, hconn, hpub]
      · simp [publishMessage, mqttClient.connected, mqttClient.publish, Serial.println,
          Serial.print, Serial.printlnNat, World.emit, hconn, hpub, hlen]
      · simp [hlen]
      · simp [hlen]
    · refine ⟨?_, [], ?_, ?_, ?_⟩
      · simp [publishMessage, mqttClient.connected, mqttClient.publish, hconn, hpub]
      · simp [publishMessage, mqttClient.connected, mqttClient.publish, Serial.println,
          Serial.print, Serial.printlnNat, World.emit, hconn, hpub, hlen]
      · simp [hlen]
      · simpa using hlen
  · intro hpub
    simp [publishMessage, mqttClient.connected, mqttClient.publish, Serial.println,
      Serial.print, World.emit, hconn, hpub]

/-- Witness for C5: on the connected simulated client that rejects every publish, a
message of 257 bytes gets the oversize line and a message of 256 bytes does not. -/
theorem publishMessage_failure_diagnostics_witness :
    (publishMessage simClient (simWorld true 0 0 false) "home/temp" (filler 257)).2.log =
      [Event.connected true,
       Event.print "Publishing message to topic: ", Event.println "home/temp",
       Event.print "Message: ", Event.println (filler 257),
       Event.publish "home/temp" (filler 257) false false,
       Event.println "Error: Failed to publish message",
       Event.print "Message length: ", Event.printlnNat 257,
       Event.println "Error: Message too large for MQTT packet size"] ∧
    (publishMessage simClient (simWorld true 0 0 false) "home/temp" (filler 256)).2.log =
      [Event.connected true,
       Event.print "Publishing message to topic: ", Event.println "home/temp",
       Event.print "Message: ", Event.println (filler 256),
       Event.publish "home/temp" (filler 256) false false,
       Event.println "Error: Failed to publish message",
       Event.print "Message length: ", Event.printlnNat 256] := by
  constructor
  · obtain ⟨-, oversize, hlog, hflag, -⟩ :=
      (publishMessage_failure_diagnostics simClient (simWorld true 0 0 false) "home/temp"
        (filler 257) false rfl).2.1 rfl
    rw [hflag.mpr (by rw [strlen_filler]; decide), strlen_filler] at hlog
    exact hlog
  · obtain ⟨-, oversize, hlog, -, hplain⟩ :=
      (publishMessage_failure_diagnostics simClient (simWorld true 0 0 false) "home/temp"
        (filler 256) false rfl).2.1 rfl
    rw [hplain.mpr (by rw [strlen_filler]; decide), strlen_filler] at hlog
    exact hlog

/-- C6: when the protocol client reports not connected, `subscribeToTopic` returns
false, writes one diagnostic line, leaves the client state as it was, and does nothing
else besides the liveness query: no call of the client's subscribe. -/
theorem subscribeToTopic_not_connected (C : PubSubClient σ) (w : World σ)
    (topic : String) (qos : Nat) (h : C.connected w.client = false) :
    (subscribeToTopic C w topic qos).1 = false ∧
    (subscribeToTopic C w topic qos).2.client = w.client ∧
    (subscribeToTopic C w topic qos).2.log = w.log ++
      [Event.connected false,
       Event.println "Error: Cannot subscribe - MQTT client not connected"] ∧
    ((subscribeToTopic C w topic qos).2.log.drop w.log.length).filter Event.isSubscribe = [] := by
  simp [subscribeToTopic, mqttClient.connected, Serial.println, World.emit, h,
    Event.isSubscribe]

/-- Witness for C6 on the simulated client, not connected. -/
theorem subscribeToTopic_not_connected_witness :
    (subscribeToTopic simClient (simWorld false 0 (-1) true) "home/temp" 1).1 = false ∧
    (subscribeToTopic simClient (simWorld false 0 (-1) true) "home/temp" 1).2.client
      = (simWorld false 0 (-1) true).client ∧
    (subscribeToTopic simClient (simWorld false 0 (-1) true) "home/temp" 1).2.log
      = (simWorld false 0 (-1) true).log ++
      [Event.connected false,
       Event.println "Error: Cannot subscribe - MQTT client not connected"] ∧
    ((subscribeToTopic simClient (simWorld false 0 (-1) true) "home/temp" 1).2.log.drop
      (simWorld false 0 (-1) true).log.length).filter Event.isSubscribe = [] :=
  subscribeToTopic_not_connected simClient (simWorld false 0 (-1) true) "home/temp" 1 rfl

/-- C10: while connected, `publishMessage` calls the client's publish exactly once,
with the topic, message and retain flag it was given (retain is false when left out),
returns exactly the boolean of that call, and the client is left as that one call
left it: a failed publish is not retried. -/
theorem publishMessage_connected_publishes_once (C : PubSubClient σ) (w : World σ)
    (topic message : String) (retain : Bool) (hconn : C.connected w.client = true) :
    (publishMessage C w topic message retain).1 = (C.publish w.client topic message retain).1 ∧
    (publishMessage C w topic message retain).2.client
      = (C.publish w.client topic message retain).2 ∧
    ((publishMessage C w topic message retain).2.log.drop w.log.length).filter Event.isPublish
      = [Event.publish topic message retain (C.publish w.client topic message retain).1] ∧
    publishMessage C w topic message = publishMessage C w topic message false := by
  refine ⟨?_, ?_, ?_, rfl⟩
  · cases hpub : (C.publish w.client topic message retain).1 <;>
      simp [publishMessage, mqttClient.connected, mqttClient.publish, hconn, hpub]
  · cases hpub : (C.publish w.client topic message retain).1 <;>
      by_cases hlen : MQTT_MAX_PACKET_SIZE < strlen message <;>
      simp [publishMessage, mqttClient.connected, mqttClient.publish, Serial.println,
        Serial.print, Serial.printlnNat, World.emit, hconn, hpub, hlen]
  · cases hpub : (C.publish w.client topic message retain).1 <;>
      by_cases hlen : MQTT_MAX_PACKET_SIZE < strlen message <;>
      simp [publishMessage, mqttClient.connected, mqttClient.publish, Serial.println,
        Serial.print, Serial.printlnNat, World.emit, hconn, hpub, hlen, Event.isPublish]

/-- Witness for C10: the connected simulated client rejects the publish, and
`publishMessage` hands that answer back after a single call. -/
theorem publishMessage_connected_publishes_once_witness :
    (publishMessage simClient (simWorld true 0 0 false) "home/temp" "21.5" true).1
      = (simClient.publish (simWorld true 0 0 false).client "home/temp" "21.5" true).1 ∧
    ((publishMessage simClient (simWorld true 0 0 false) "home/temp" "21.5" true).2.log.drop
      (simWorld true 0 0 false).log.length).filter Event.isPublish
      = [Event.publish "home/temp" "21.5" true
          (simClient.publish (simWorld true 0 0 false).client "home/temp" "21.5" true).1] ∧
    (simClient.publish (simWorld true 0 0 false).client "home/temp" "21.5" true).1 = false :=
  ⟨(publishMessage_connected_publishes_once simClient (simWorld true 0 0 false)
      "home/temp" "21.5" true rfl).1,
   (publishMessage_connected_publishes_once simClient (simWorld true 0 0 false)
      "home/temp" "21.5" true rfl).2.2.1,
   rfl⟩

/-- C7, as stated, fails: with `qos = 3` on a connected client whose subscribe
accepts the request, `subscribeToTopic` returns true. -/
theorem subscribeToTopic_qos3_accepted :
    simClient.connected (simWorld true 0 0 true).client = true ∧
    (3 : Nat) ∉ [0, 1, 2] ∧ 3 ≤ 255 ∧
    (simClient.subscribe (simWorld true 0 0 true).client "home/temp" 3).1 = true ∧
    (subscribeToTopic simClient (simWorld true 0 0 true) "home/temp" 3).1 = true := by
  decide

/-- C7, amended: for every qos outside 0, 1, 2 (a `uint8_t`, so 3 to 255) and every
topic, `subscribeToTopic` called while connected returns a result (it is a total
function), hands the request to the client's subscribe exactly once with that topic
and qos, and returns exactly what the client answers: false when the client rejects
the qos, true when it accepts it. -/
theorem subscribeToTopic_connected_delegates (C : PubSubClient σ) (w : World σ)
    (topic : String) (qos : Nat) (_hlo : 3 ≤ qos) (_hhi : qos ≤ 255)
    (hconn : C.connected w.client = true) :
    (subscribeToTopic C w topic qos).1 = (C.subscribe w.client topic qos).1 ∧
    (subscribeToTopic C w topic qos).2.client = (C.subscribe w.client topic qos).2 ∧
    ((subscribeToTopic C w topic qos).2.log.drop w.log.length).filter Event.isSubscribe
      = [Event.subscribe topic qos (C.subscribe w.client topic qos).1] := by
  cases hsub : (C.subscribe w.client topic qos).1 <;>
    simp [subscribeToTopic, hconn, hsub, Event.isSubscribe]

/-- Witness for the amended C7: qos 3 on the simulated client, connected and
rejecting subscriptions. -/
theorem subscribeToTopic_connected_delegates_witness :
    (subscribeToTopic simClient (simWorld true 0 0 false) "home/temp" 3).1
      = (simClient.subscribe (simWorld true 0 0 false).client "home/temp" 3).1 ∧
    (subscribeToTopic simClient (simWorld true 0 0 false) "home/temp" 3).2.client
      = (simClient.subscribe (simWorld true 0 0 false).client "home/temp" 3).2 ∧
    ((subscribeToTopic simClient (simWorld true 0 0 false) "home/temp" 3).2.log.drop
        (simWorld true 0 0 false).log.length).filter Event.isSubscribe
      = [Event.subscribe "home/temp" 3
          (simClient.subscribe (simWorld true 0 0 false).client "home/temp" 3).1] :=
  subscribeToTopic_connected_delegates simClient (simWorld true 0 0 false) "home/temp" 3
    (by decide) (by decide) rfl

/-- C8: every call of `connectToMQTT` first sets the broker host and port and
registers `mqttCallback`, then calls the client's connect once with the configured
client id, username and password; whatever follows is serial output and `state()`
queries only (no delay, no second connect); the result is the answer of that one
connect call, and the client is left as that call left it. -/
theorem connectToMQTT_single_attempt (C : PubSubClient σ) (w : World σ) :
    (connectToMQTT C w).1 = (handshake C w.client).1 ∧
    (connectToMQTT C w).2.client = (handshake C w.client).2 ∧
    ((connectToMQTT C w).1 = true ↔
      (C.connect (C.setCallback (C.setServer w.client MQTT_BROKER MQTT_PORT)
        Handler.mqttCallback) MQTT_CLIENT_ID MQTT_USERNAME MQTT_PASSWORD).1 = true) ∧
    ∃ report : List Event,
      (connectToMQTT C w).2.log = w.log ++
        [Event.println "Attempting MQTT connection...",
         Event.setServer MQTT_BROKER MQTT_PORT,
         Event.setCallback Handler.mqttCallback,
         Event.connect MQTT_CLIENT_ID MQTT_USERNAME MQTT_PASSWORD (handshake C w.client).1]
        ++ report ∧
      ∀ e ∈ report, e.isSerial = true ∨ ∃ code, e = Event.state code := by
  refine ⟨?_, ?_, ?_, ?_⟩
  · rw [connectToMQTT_eq]
  · rw [connectToMQTT_eq]
  · rw [connectToMQTT_eq]; rfl
  · rw [connectToMQTT_eq]
    cases hok : (handshake C w.client).1
    · refine ⟨[Event.print "Failed to connect to MQTT broker, rc=",
        Event.state (C.state (handshake C w.client).2),
        Event.printInt (C.state (handshake C w.client).2),
        Event.println " Retry in 5 seconds",
        Event.state (C.state (handshake C w.client).2)] ++
        (errorLabel (C.state (handshake C w.client).2)).toList.map Event.println, ?_, ?_⟩
      · simp [attemptEvents]
      · intro e he
        simp only [List.mem_append, List.mem_cons, List.mem_singleton, List.not_mem_nil,
          or_false, List.mem_map] at he
        rcases he with (rfl | rfl | rfl | rfl | rfl) | ⟨label, _, rfl⟩ <;>
          simp [Event.isSerial]
    · exact ⟨[Event.println "Connected to MQTT broker successfully"],
        by simp [attemptEvents], by simp [Event.isSerial]⟩

/-- C4, as stated, fails: when connect fails and the client then reports state
code 6, `connectToMQTT` returns false and writes none of the nine labels. -/
theorem connectToMQTT_code6_unlabelled :
    (handshake simClient (simWorld false 1 6 true).client).1 = false ∧
    simClient.state (handshake simClient (simWorld false 1 6 true).client).2 = 6 ∧
    (connectToMQTT simClient (simWorld false 1 6 true)).1 = false ∧
    (connectToMQTT simClient (simWorld false 1 6 true)).2.log =
      [Event.println "Attempting MQTT connection...",
       Event.setServer MQTT_BROKER MQTT_PORT,
       Event.setCallback Handler.mqttCallback,
       Event.connect MQTT_CLIENT_ID MQTT_USERNAME MQTT_PASSWORD false,
       Event.print "Failed to connect to MQTT broker, rc=",
       Event.state 6, Event.printInt 6,
       Event.println " Retry in 5 seconds",
       Event.state 6] ∧
    ∀ entry ∈ errorTable,
      Event.println entry.2 ∉ (connectToMQTT simClient (simWorld false 1 6 true)).2.log := by
  decide

/-- C4, amended: for every failed connect attempt `connectToMQTT` returns false and
writes the numeric `rc=` line; when the state code the client then reports is one of
-4, -3, -2, -1, 1, 2, 3, 4, 5 it writes after that exactly one label, the one the
table gives for the code (in the order timeout, lost, failed, disconnected, bad
protocol, bad client id, unavailable, bad credentials, unauthorized), distinct codes
giving distinct labels; for any other code it writes no label. -/
theorem connectToMQTT_failure_labels (C : PubSubClient σ) (w : World σ)
    (hfail : (handshake C w.client).1 = false) :
    (connectToMQTT C w).1 = false ∧
    (connectToMQTT C w).2.log = w.log ++
      [Event.println "Attempting MQTT connection...",
       Event.setServer MQTT_BROKER MQTT_PORT,
       Event.setCallback Handler.mqttCallback,
       Event.connect MQTT_CLIENT_ID MQTT_USERNAME MQTT_PASSWORD false,
       Event.print "Failed to connect to MQTT broker, rc=",
       Event.state (C.state (handshake C w.client).2),
       Event.printInt (C.state (handshake C w.client).2),
       Event.println " Retry in 5 seconds",
       Event.state (C.state (handshake C w.client).2)] ++
      (errorLabel (C.state (handshake C w.client).2)).toList.map Event.println ∧
    (∀ code label, errorLabel code = some label ↔ (code, label) ∈ errorTable) ∧
    (∀ code, errorLabel code = none ↔ code ∉ [-4, -3, -2, -1, 1, 2, 3, 4, 5]) ∧
    (∀ code1 code2 label, errorLabel code1 = some label → errorLabel code2 = some label →
      code1 = code2) ∧
    errorTable.map Prod.fst = [-4, -3, -2, -1, 1, 2, 3, 4, 5] ∧
    errorTable.map Prod.snd =
      ["MQTT_CONNECTION_TIMEOUT", "MQTT_CONNECTION_LOST", "MQTT_CONNECT_FAILED",
       "MQTT_DISCONNECTED", "MQTT_CONNECT_BAD_PROTOCOL", "MQTT_CONNECT_BAD_CLIENT_ID",
       "MQTT_CONNECT_UNAVAILABLE", "MQTT_CONNECT_BAD_CREDENTIALS",
       "MQTT_CONNECT_UNAUTHORIZED"] := by
  refine ⟨?_, ?_, errorLabel_table, errorLabel_none, errorLabel_inj, rfl, rfl⟩
  · rw [connectToMQTT_eq]; exact hfail
  · rw [connectToMQTT_eq]; simp [attemptEvents, hfail]

/-- Witness for the amended C4: the simulated client fails once and reports -2. -/
theorem connectToMQTT_failure_labels_witness :
    (handshake simClient (simWorld false 1 (-2) true).client).1 = false ∧
    (connectToMQTT simClient (simWorld false 1 (-2) true)).2.log =
      (simWorld false 1 (-2) true).log ++
      [Event.println "Attempting MQTT connection...",
       Event.setServer MQTT_BROKER MQTT_PORT,
       Event.setCallback Handler.mqttCallback,
       Event.connect MQTT_CLIENT_ID MQTT_USERNAME MQTT_PASSWORD false,
       Event.print "Failed to connect to MQTT broker, rc=",
       Event.state (simClient.state (handshake simClient (simWorld false 1 (-2) true).client).2),
       Event.printInt
         (simClient.state (handshake simClient (simWorld false 1 (-2) true).client).2),
       Event.println " Retry in 5 seconds",
       Event.state (simClient.state (handshake simClient (simWorld false 1 (-2) true).client).2)]
      ++ (errorLabel
        (simClient.state (handshake simClient (simWorld false 1 (-2) true).client).2)).toList.map
          Event.println ∧
    errorLabel (simClient.state (handshake simClient (simWorld false 1 (-2) true).client).2)
      = some "MQTT_CONNECT_FAILED" :=
  ⟨rfl, (connectToMQTT_failure_labels simClient (simWorld false 1 (-2) true) rfl).2.1, rfl⟩

/-- The print loop of `mqttCallback`, entered with counter `i` at most `length`,
writes the bytes `i .. length - 1` of the buffer and nothing else. -/
theorem printPayload_eq (payload : List Nat) (length : Nat) (hlen : length ≤ payload.length) :
    ∀ (k i : Nat) (w : World σ), i + k = length →
      printPayload payload length i w = some
        { client := w.client,
          log := w.log ++ ((payload.take length).drop i).map Event.printChar } := by
  intro k
  induction k with
  | zero =>
    intro i w hi
    have hi2 : i = length := by omega
    subst hi2
    rw [printPayload, if_neg (lt_irrefl _), List.drop_eq_nil_of_le (by simp)]
    simp
  | succ k ih =>
    intro i w hi
    have hlt : i < length := by omega
    have hp : i < payload.length := by omega
    have ht : i < (payload.take length).length := by simp; omega
    rw [printPayload]
    simp only [hlt, if_true]
    rw [List.getElem?_eq_getElem hp]
    simp only
    rw [ih (i + 1) _ (by omega)]
    rw [List.drop_eq_getElem_cons ht]
    simp [List.getElem_take]

/-- The serial text of a concatenation is the concatenation of the texts. -/
theorem serialText_append (xs ys : List Event) :
    serialText (xs ++ ys) = serialText xs ++ serialText ys := by
  induction xs with
  | nil => rfl
  | cons e es ih => simp [serialText, ih]

/-- The serial text of a run of single bytes is the run of their characters. -/
theorem serialText_printChar (bytes : List Nat) :
    serialText (bytes.map Event.printChar) = bytes.map Char.ofNat := by
  induction bytes with
  | nil => rfl
  | cons b bs ih => simp [serialText, Event.text, ih]

/-- C9: for every topic, buffer and `length` within the buffer, `mqttCallback` writes
`Message arrived [`, the topic, `] `, then exactly the first `length` bytes of the
buffer in order, then a line end, and nothing else; a buffer that agrees with this
one on the first `length` bytes gives the same result, so no byte at index `length`
or beyond is read. -/
theorem mqttCallback_prints_payload (w : World σ) (topic : String) (payload : List Nat)
    (length : Nat) (hlen : length ≤ payload.length) :
    mqttCallback w topic payload length = some
      { client := w.client,
        log := w.log ++
          ([Event.print "Message arrived [", Event.print topic, Event.print "] "] ++
            (payload.take length).map Event.printChar ++ [Event.newline]) } ∧
    serialText
      ([Event.print "Message arrived [", Event.print topic, Event.print "] "] ++
        (payload.take length).map Event.printChar ++ [Event.newline])
      = "Message arrived [".toList ++ topic.toList ++ "] ".toList ++
        (payload.take length).map Char.ofNat ++ "\r\n".toList ∧
    ∀ other : List Nat, length ≤ other.length → other.take length = payload.take length →
      mqttCallback w topic other length = mqttCallback w topic payload length := by
  have hrun : ∀ buffer : List Nat, length ≤ buffer.length →
      mqttCallback w topic buffer length = some
        { client := w.client,
          log := w.log ++
            ([Event.print "Message arrived [", Event.print topic, Event.print "] "] ++
              (buffer.take length).map Event.printChar ++ [Event.newline]) } := by
    intro buffer hb
    unfold mqttCallback
    simp only
    rw [printPayload_eq buffer length hb length 0 _ (by omega)]
    simp
  refine ⟨hrun payload hlen, ?_, ?_⟩
  · rw [serialText_append, serialText_append, serialText_printChar]
    simp [serialText, Event.text]
  · intro other hother hsame
    rw [hrun other hother, hrun payload hlen, hsame]

/-- Witness for C9: the five bytes of "Hello" followed by three more bytes. -/
theorem mqttCallback_prints_payload_witness :
    mqttCallback (simWorld true 0 0 true) "home/temp"
        [0x48, 0x65, 0x6C, 0x6C, 0x6F, 0xFF, 0x00, 0x21] 5 = some
      { client := (simWorld true 0 0 true).client,
        log := (simWorld true 0 0 true).log ++
          ([Event.print "Message arrived [", Event.print "home/temp", Event.print "] "] ++
            (([0x48, 0x65, 0x6C, 0x6C, 0x6F, 0xFF, 0x00, 0x21] : List Nat).take 5).map
              Event.printChar ++ [Event.newline]) } ∧
    String.mk (serialText
      ([Event.print "Message arrived [", Event.print "home/temp", Event.print "] "] ++
        (([0x48, 0x65, 0x6C, 0x6C, 0x6F, 0xFF, 0x00, 0x21] : List Nat).take 5).map
          Event.printChar ++ [Event.newline]))
      = "Message arrived [home/temp] Hello\r\n" :=
  ⟨(mqttCallback_prints_payload (simWorld true 0 0 true) "home/temp"
      [0x48, 0x65, 0x6C, 0x6C, 0x6F, 0xFF, 0x00, 0x21] 5 (by decide)).1, by decide⟩

/-- A failed call of `connectToMQTT` followed by `delay(5000)` leaves the client as
the failed handshake left it. -/
theorem delay_connectToMQTT_client (C : PubSubClient σ) (w : World σ) :
    (delay 5000 (connectToMQTT C w).2).client = (handshake C w.client).2 := by
  rw [connectToMQTT_eq]; rfl

/-- With `n` failures ahead of the first success, `n` or fewer attempts do not get
the retry loop of `setup` to its end. -/
theorem setupLoop_none (C : PubSubClient σ) (n : Nat) :
    ∀ (w : World σ), failsThenSucceeds C n w.client = true →
      ∀ fuel, fuel ≤ n → setupLoop C fuel w = none := by
  induction n with
  | zero =>
    intro w _ fuel hfuel
    have h0 : fuel = 0 := by omega
    subst h0
    rfl
  | succ n ih =>
    intro w h fuel hfuel
    cases fuel with
    | zero => rfl
    | succ fuel =>
      simp only [failsThenSucceeds, Bool.and_eq_true, Bool.not_eq_true'] at h
      have hfst : (connectToMQTT C w).1 = false := by rw [connectToMQTT_eq]; exact h.1
      simp only [setupLoop, hfst, Bool.not_false, if_true]
      apply ih
      · rw [delay_connectToMQTT_client]; exact h.2
      · omega

/-- With `n` failures ahead of the first success, more than `n` attempts get the
retry loop of `setup` to its end, after `n` retry rounds and one more attempt. -/
theorem setupLoop_some (C : PubSubClient σ) (n : Nat) :
    ∀ (w : World σ), failsThenSucceeds C n w.client = true →
      ∀ fuel, n < fuel → setupLoop C fuel w = some (retryRounds C n w) := by
  induction n with
  | zero =>
    intro w h fuel hfuel
    cases fuel with
    | zero => omega
    | succ fuel =>
      simp only [failsThenSucceeds] at h
      have hfst : (connectToMQTT C w).1 = true := by rw [connectToMQTT_eq]; exact h
      simp [setupLoop, hfst, retryRounds]
  | succ n ih =>
    intro w h fuel hfuel
    cases fuel with
    | zero => omega
    | succ fuel =>
      simp only [failsThenSucceeds, Bool.and_eq_true, Bool.not_eq_true'] at h
      have hfst : (connectToMQTT C w).1 = false := by rw [connectToMQTT_eq]; exact h.1
      simp only [setupLoop, hfst, Bool.not_false, if_true, retryRounds]
      apply ih
      · rw [delay_connectToMQTT_client]; exact h.2
      · omega

/-- With `n` failures ahead of the first success, the retry rounds extend the log by
events whose skeleton is `retryTrace n`. -/
theorem retryRounds_log (C : PubSubClient σ) (n : Nat) :
    ∀ (w : World σ), failsThenSucceeds C n w.client = true →
      ∃ fresh, (retryRounds C n w).log = w.log ++ fresh ∧
        fresh.filterMap Event.step = retryTrace n := by
  induction n with
  | zero =>
    intro w h
    simp only [failsThenSucceeds] at h
    refine ⟨attemptEvents true (C.state (handshake C w.client).2), ?_, ?_⟩
    · simp [retryRounds, connectToMQTT_eq, h]
    · rw [attemptEvents_step]; rfl
  | succ n ih =>
    intro w h
    simp only [failsThenSucceeds, Bool.and_eq_true, Bool.not_eq_true'] at h
    obtain ⟨fresh, hlog, hsk⟩ := ih (delay 5000 (connectToMQTT C w).2)
      (by rw [delay_connectToMQTT_client]; exact h.2)
    refine ⟨attemptEvents false (C.state (handshake C w.client).2) ++
      [Event.delay 5000] ++ fresh, ?_, ?_⟩
    · simp only [retryRounds]
      rw [hlog, connectToMQTT_eq]
      simp [h.1]
    · simp only [List.filterMap_append, attemptEvents_step, hsk]
      simp [Event.step, retryTrace]

/-- Shape of the retry skeleton: `2 * n + 1` steps, `n` failed attempts, `n` delays
of 5000 ms, one successful attempt, which comes last. -/
theorem retryTrace_shape (n : Nat) :
    (retryTrace n).length = 2 * n + 1 ∧
    (retryTrace n).count (Step.attempt false) = n ∧
    (retryTrace n).count (Step.wait 5000) = n ∧
    (retryTrace n).count (Step.attempt true) = 1 ∧
    (retryTrace n).getLast? = some (Step.attempt true) := by
  induction n with
  | zero => decide
  | succ n ih =>
    obtain ⟨h1, h2, h3, h4, h5⟩ := ih
    refine ⟨?_, ?_, ?_, ?_, ?_⟩
    · simp [retryTrace, h1]; omega
    · simp [retryTrace, h2]
    · simp [retryTrace, h3]
    · simp [retryTrace, h4]
    · cases hr : retryTrace n with
      | nil => rw [hr] at h1; simp at h1
      | cons a t =>
        rw [hr] at h5
        simp only [retryTrace, hr]
        simpa [List.getLast?_cons_cons] using h5

/-- C2: if the client's connect fails on the first `n` attempts and succeeds on
attempt `n + 1`, then `setup` returns as soon as it is given more than `n` attempts,
in the world reached by `n` rounds of `connectToMQTT` then `delay(5000)` followed by
one more `connectToMQTT`; the connect and delay events it logs are `n` times a failed
attempt directly followed by a delay of 5000, then the successful attempt, with no
delay after it; with `n` or fewer attempts `setup` has not returned. -/
theorem setup_retries_until_connected (C : PubSubClient σ) (w : World σ) (n : Nat)
    (h : failsThenSucceeds C n w.client = true) :
    (∀ fuel, n < fuel → setup C fuel w = some
      (retryRounds C n (Serial.println "\nInitializing..." (Serial.begin 115200 w)))) ∧
    (∀ fuel, fuel ≤ n → setup C fuel w = none) ∧
    ((retryRounds C n (Serial.println "\nInitializing..." (Serial.begin 115200 w))).log.drop
      w.log.length).filterMap Event.step = retryTrace n ∧
    (retryTrace n).length = 2 * n + 1 ∧
    (retryTrace n).count (Step.attempt false) = n ∧
    (retryTrace n).count (Step.wait 5000) = n ∧
    (retryTrace n).count (Step.attempt true) = 1 ∧
    (retryTrace n).getLast? = some (Step.attempt true) := by
  have hstart : failsThenSucceeds C n
      (Serial.println "\nInitializing..." (Serial.begin 115200 w)).client = true := h
  refine ⟨?_, ?_, ?_, retryTrace_shape n⟩
  · intro fuel hfuel
    exact setupLoop_some C n _ hstart fuel hfuel
  · intro fuel hfuel
    exact setupLoop_none C n _ hstart fuel hfuel
  · obtain ⟨fresh, hlog, hsk⟩ := retryRounds_log C n _ hstart
    rw [hlog]
    simp [Event.step, hsk]

/-- Witness for C2: the simulated client fails twice and then connects. -/
theorem setup_retries_until_connected_witness :
    failsThenSucceeds simClient 2 (simWorld false 2 (-2) true).client = true ∧
    setup simClient 3 (simWorld false 2 (-2) true) = some
      (retryRounds simClient 2
        (Serial.println "\nInitializing..." (Serial.begin 115200 (simWorld false 2 (-2) true)))) ∧
    setup simClient 2 (simWorld false 2 (-2) true) = none ∧
    ((retryRounds simClient 2 (Serial.println "\nInitializing..."
      (Serial.begin 115200 (simWorld false 2 (-2) true)))).log.drop
      (simWorld false 2 (-2) true).log.length).filterMap Event.step
      = [Step.attempt false, Step.wait 5000, Step.attempt false, Step.wait 5000,
         Step.attempt true] :=
  ⟨rfl,
   (setup_retries_until_connected simClient (simWorld false 2 (-2) true) 2 rfl).1 3 (by decide),
   (setup_retries_until_connected simClient (simWorld false 2 (-2) true) 2 rfl).2.1 2 (by decide),
   (setup_retries_until_connected simClient (simWorld false 2 (-2) true) 2 rfl).2.2.1⟩

/-- C3, as stated, fails: the client reports not connected, the one connect attempt
of the iteration succeeds, the poll step that follows drops the link, and after the
iteration the client reports not connected. -/
theorem loop_poll_drops_link :
    droppingClient.connected (simWorld false 0 (-3) true).client = false ∧
    (handshake droppingClient (simWorld false 0 (-3) true).client).1 = true ∧
    (connectToMQTT droppingClient
      ((simWorld false 0 (-3) true).emit (Event.connected false))).1 = true ∧
    ((loop droppingClient (simWorld false 0 (-3) true)).log.drop
      (simWorld false 0 (-3) true).log.length).filterMap Event.step
      = [Step.attempt true, Step.poll] ∧
    droppingClient.connected (loop droppingClient (simWorld false 0 (-3) true)).client
      = false := by
  decide

/-- C3, amended: one iteration of `loop`. If the client reports not connected, the
iteration makes exactly one connect attempt (one call of `connectToMQTT`), no delay,
and then one poll, also when the attempt failed; the client is left as that poll
leaves it when started from the state the connect attempt left. For a client that
reports the outcome of connect, the state handed to the poll is connected exactly
when the attempt succeeded, and if moreover the poll leaves that report alone, so is
the state after the iteration. If the client reports connected, the iteration makes
no connect attempt and polls once. -/
theorem loop_iteration (C : PubSubClient σ) (w : World σ) :
    (C.connected w.client = false →
      loop C w = mqttClient.loop C (connectToMQTT C (w.emit (Event.connected false))).2 ∧
      ((loop C w).log.drop w.log.length).filterMap Event.step
        = [Step.attempt (handshake C w.client).1, Step.poll] ∧
      (loop C w).client = (C.loop (handshake C w.client).2).2 ∧
      ((∀ s id user pass,
          C.connected (C.connect s id user pass).2 = (C.connect s id user pass).1) →
        C.connected (connectToMQTT C (w.emit (Event.connected false))).2.client
          = (handshake C w.client).1) ∧
      (C.ReportsOutcome → C.connected (loop C w).client = (handshake C w.client).1)) ∧
    (C.connected w.client = true →
      loop C w = mqttClient.loop C (w.emit (Event.connected true)) ∧
      ((loop C w).log.drop w.log.length).filterMap Event.step = [Step.poll] ∧
      (loop C w).client = (C.loop w.client).2) := by
  constructor
  · intro hdown
    have hrun : loop C w =
        mqttClient.loop C (connectToMQTT C (w.emit (Event.connected false))).2 := by
      simp [loop, hdown]
    refine ⟨hrun, ?_, ?_, ?_, ?_⟩
    · rw [hrun, connectToMQTT_eq]
      simp [List.filterMap_append, attemptEvents_step, Event.step]
    · rw [hrun, connectToMQTT_eq]
      rfl
    · intro hconnect
      rw [connectToMQTT_eq]
      exact hconnect _ _ _ _
    · intro hcontract
      rw [hrun, connectToMQTT_eq]
      simp only [mqttClient.loop, World.emit]
      rw [hcontract.2]
      exact hcontract.1 _ _ _ _
  · intro hup
    simp [loop, hup, Event.step]

/-- The simulated client keeps the contract `ReportsOutcome`. -/
theorem simClient_reportsOutcome : simClient.ReportsOutcome := by
  constructor
  · intro s id user pass
    simp only [simClient]
    split <;> rfl
  · intro s
    rfl

/-- Witness for the amended C3: a disconnected simulated client whose next connect
succeeds, and a connected one. -/
theorem loop_iteration_witness :
    (((loop simClient (simWorld false 0 (-3) true)).log.drop
        (simWorld false 0 (-3) true).log.length).filterMap Event.step
        = [Step.attempt (handshake simClient (simWorld false 0 (-3) true).client).1, Step.poll] ∧
      simClient.connected (connectToMQTT simClient
          ((simWorld false 0 (-3) true).emit (Event.connected false))).2.client
        = (handshake simClient (simWorld false 0 (-3) true).client).1 ∧
      simClient.connected (loop simClient (simWorld false 0 (-3) true)).client
        = (handshake simClient (simWorld false 0 (-3) true).client).1) ∧
    ((loop simClient (simWorld true 0 0 true)).log.drop
        (simWorld true 0 0 true).log.length).filterMap Event.step = [Step.poll] :=
  ⟨⟨((loop_iteration simClient (simWorld false 0 (-3) true)).1 rfl).2.1,
    ((loop_iteration simClient (simWorld false 0 (-3) true)).1 rfl).2.2.2.1
      simClient_reportsOutcome.1,
    ((loop_iteration simClient (simWorld false 0 (-3) true)).1 rfl).2.2.2.2
      simClient_reportsOutcome⟩,
   ((loop_iteration simClient (simWorld true 0 0 true)).2 rfl).2.1⟩

end MqttBroker
